import Mathlib

/-!
Verification of the contact-upsert and note-attachment workflow of the
HubSpot proxy server (server.js, second revision, and the part_001
handler variant).

The remote HTTP layer is modelled by passing the remote responses in as
explicit arguments; each operation returns, besides its outcome, the list
of outbound remote calls it issued, so that claims about which calls are
made (search issued or not, note issued only after resolution) are
statable.
-/

namespace NytroUpsert

/-- `response.ok` of the Fetch API: status in the 2xx range. -/
def respOk (status : Nat) : Bool := 200 ≤ status && status < 300

/-- Remote response to the contact-create POST.  `id` is the `id` field of
the JSON body (used on success), `body` the raw text (used on failure,
in particular the 409 conflict body). -/
structure CreateResponse where
  status : Nat
  id : String
  body : String
deriving Repr, DecidableEq

/-- One result row of the contact search endpoint. -/
structure SearchResult where
  id : String
deriving Repr, DecidableEq

/-- Remote response to the contact-search POST. -/
structure SearchResponse where
  status : Nat
  results : List SearchResult
deriving Repr, DecidableEq

/-- Remote response to the note-create POST. -/
structure NoteResponse where
  status : Nat
  id : String
  body : String
deriving Repr, DecidableEq

/-- Remote response to the contact PATCH (part_001 variant). -/
structure UpdateResponse where
  status : Nat
  id : String
  body : String
deriving Repr, DecidableEq

/-- The `action` field reported by `ensureContactExists`. -/
inductive Action
  | created
  | found
deriving Repr, DecidableEq

/-- Return value of `ensureContactExists`: `{ contactId, action }`. -/
structure ContactResult where
  contactId : String
  action : Action
deriving Repr, DecidableEq

/-- The single error `ensureContactExists` can throw:
`Failed to ensure contact exists: <status>` carrying the create status. -/
inductive ResolveError
  | ensureFailed (status : Nat)
deriving Repr, DecidableEq

/-- The error thrown by `createContactNote`:
`Note creation failed: <status> - <errorText>`. -/
inductive NoteError
  | noteCreateFailed (status : Nat) (body : String)
deriving Repr, DecidableEq

/-- An outbound remote call, as recorded in the trace.
`search` carries the single filter `{ propertyName, operator, value }`
the handlers always send; `note` carries the association target, the
`hs_note_body` text and the association type id. -/
inductive RemoteCall
  | create (email : String)
  | search (propertyName op value : String)
  | patch (contactId : String)
  | note (contactId body : String) (assocTypeId : Nat)
deriving Repr, DecidableEq

/-- `ensureContactExists(email)` of server.js (second revision, lines
328-387): POST the contact; on 2xx return the new id with action
`created`; on 409 issue the search filtered on `email EQ <email>` and, if
it is 2xx with a non-empty result list, return the first result's id with
action `found`; in every other case throw
`Failed to ensure contact exists: <create status>`. -/
def ensureContactExists (email : String) (create : CreateResponse)
    (search : SearchResponse) :
    Except ResolveError ContactResult × List RemoteCall :=
  if respOk create.status then
    (Except.ok ⟨create.id, Action.created⟩, [RemoteCall.create email])
  else if create.status = 409 then
    if respOk search.status then
      match search.results with
      | r :: _ =>
        (Except.ok ⟨r.id, Action.found⟩,
         [RemoteCall.create email, RemoteCall.search "email" "EQ" email])
      | [] =>
        (Except.error (ResolveError.ensureFailed create.status),
         [RemoteCall.create email, RemoteCall.search "email" "EQ" email])
    else
      (Except.error (ResolveError.ensureFailed create.status),
       [RemoteCall.create email, RemoteCall.search "email" "EQ" email])
  else
    (Except.error (ResolveError.ensureFailed create.status),
     [RemoteCall.create email])

/-- `createContactNote(contactId, noteContent)` of server.js (lines
390-429): POST a note with `hs_note_body = noteContent`, associated to
`contactId` with association type id 201; throw on non-2xx. -/
def createContactNote (contactId noteContent : String)
    (resp : NoteResponse) : Except NoteError String × List RemoteCall :=
  if respOk resp.status then
    (Except.ok resp.id, [RemoteCall.note contactId noteContent 201])
  else
    (Except.error (NoteError.noteCreateFailed resp.status resp.body),
     [RemoteCall.note contactId noteContent 201])

/-- Outcome of the `/api/hubspot/create-contact` handler of server.js
(second revision, lines 285-325). -/
inductive UpsertOutcome
  | emailRequired
  | keyMissing
  | success (contactId noteId : String) (action : Action)
  | failure (msg : String)
deriving Repr, DecidableEq

/-- The `/api/hubspot/create-contact` handler of server.js (second
revision): reject a missing or empty email with 400 before any remote
call; reject a missing API key with 500; default the note text to
`Live December 11, 2025` when `notes` is absent or empty; run
`ensureContactExists`, then `createContactNote` on the resolved id; any
thrown error becomes the 500 failure response. -/
def createContactAndNoteHandler (email notes : Option String)
    (hasKey : Bool) (create : CreateResponse) (search : SearchResponse)
    (note : NoteResponse) : UpsertOutcome × List RemoteCall :=
  match email with
  | none => (UpsertOutcome.emailRequired, [])
  | some e =>
    if e = "" then (UpsertOutcome.emailRequired, [])
    else if hasKey = false then (UpsertOutcome.keyMissing, [])
    else
      let noteContent :=
        match notes with
        | none => "Live December 11, 2025"
        | some s => if s = "" then "Live December 11, 2025" else s
      match ensureContactExists e create search with
      | (Except.error _, calls) =>
        (UpsertOutcome.failure "Failed to create contact and note", calls)
      | (Except.ok cr, calls) =>
        match createContactNote cr.contactId noteContent note with
        | (Except.ok nid, ncalls) =>
          (UpsertOutcome.success cr.contactId nid cr.action, calls ++ ncalls)
        | (Except.error _, ncalls) =>
          (UpsertOutcome.failure "Failed to create contact and note",
           calls ++ ncalls)

/-- One attempted match of the regex `ID:\s*(\d+)` at the head of the
character list: the literal `ID:`, then greedy whitespace, then at least
one digit; the capture is the maximal digit run. -/
def matchIdAt : List Char → Option String
  | 'I' :: 'D' :: ':' :: rest =>
    let ds := (rest.dropWhile Char.isWhitespace).takeWhile Char.isDigit
    if ds = [] then none else some (String.mk ds)
  | _ => none

/-- `errorText.match(/ID:\s*(\d+)/)` of part_001 line 107: scan positions
left to right and return the first capture. -/
def extractId : List Char → Option String
  | [] => none
  | c :: rest =>
    match matchIdAt (c :: rest) with
    | some d => some d
    | none => extractId rest

/-- The id extracted from a conflict body, as a `String` function. -/
def extractIdStr (s : String) : Option String := extractId s.data

/-- Outcome of the part_001 `/api/hubspot/create-contact` handler. -/
inductive P1Outcome
  | emailRequired
  | keyMissing
  | created (id : String)
  | updated (id : String)
  | createFailed
  | updateFailed
deriving Repr, DecidableEq

/-- `updateExistingContact(contactId, ...)` of part_001 (lines 131-158):
PATCH the contact; on 2xx respond with the PATCH body and
`action: 'updated'`; on failure respond 500 `Failed to update contact`. -/
def updateExistingContact (contactId : String)
    (update : UpdateResponse) : P1Outcome × List RemoteCall :=
  if respOk update.status then
    (P1Outcome.updated update.id, [RemoteCall.patch contactId])
  else
    (P1Outcome.updateFailed, [RemoteCall.patch contactId])

/-- `updateContactByEmail(email, ...)` of part_001 (lines 161-200): search
by `email EQ <email>`; on a 2xx non-empty result list PATCH the first
result's id; every failure responds 500 `Failed to update contact`. -/
def updateContactByEmail (email : String) (search : SearchResponse)
    (update : UpdateResponse) : P1Outcome × List RemoteCall :=
  if respOk search.status then
    match search.results with
    | r :: _ =>
      let (o, calls) := updateExistingContact r.id update
      (o, RemoteCall.search "email" "EQ" email :: calls)
    | [] => (P1Outcome.updateFailed, [RemoteCall.search "email" "EQ" email])
  else (P1Outcome.updateFailed, [RemoteCall.search "email" "EQ" email])

/-- The `/api/hubspot/create-contact` handler of part_001 (lines 53-128):
reject a missing or empty email, then a missing key; POST the contact; on
2xx respond `action: 'created'`; on 409 extract `ID:` digits from the
body and, when extraction succeeds, PATCH that id directly (no search),
otherwise search by email and PATCH the first result; every other create
status responds 500 `Failed to create contact`.  (The request-body
properties, which the claims do not concern, are not modelled.) -/
def createContactHandlerP1 (email : Option String) (hasKey : Bool)
    (create : CreateResponse) (search : SearchResponse)
    (update : UpdateResponse) : P1Outcome × List RemoteCall :=
  match email with
  | none => (P1Outcome.emailRequired, [])
  | some e =>
    if e = "" then (P1Outcome.emailRequired, [])
    else if hasKey = false then (P1Outcome.keyMissing, [])
    else if respOk create.status then
      (P1Outcome.created create.id, [RemoteCall.create e])
    else if create.status = 409 then
      match extractIdStr create.body with
      | some existingId =>
        let (o, calls) := updateExistingContact existingId update
        (o, RemoteCall.create e :: calls)
      | none =>
        let (o, calls) := updateContactByEmail e search update
        (o, RemoteCall.create e :: calls)
    else (P1Outcome.createFailed, [RemoteCall.create e])

/-- A remote CRM enforcing email uniqueness, as the idempotence claim
hypothesises (spec section 6): an association of emails to contact ids
and a counter for fresh ids. -/
structure Crm where
  contacts : List (String × String)
  nextId : Nat
deriving Repr, DecidableEq

/-- The CRM's answer to the contact-create POST: 409 when a contact with
that email exists, otherwise 201 with a fresh id, recorded in the
state. -/
def crmCreate (crm : Crm) (email : String) : CreateResponse × Crm :=
  match crm.contacts.lookup email with
  | some _ => (⟨409, "", "Contact already exists"⟩, crm)
  | none =>
    let newId := toString crm.nextId
    (⟨201, newId, ""⟩,
     ⟨(email, newId) :: crm.contacts, crm.nextId + 1⟩)

/-- The CRM's answer to the search POST filtered on an email. -/
def crmSearch (crm : Crm) (email : String) : SearchResponse :=
  match crm.contacts.lookup email with
  | some i => ⟨200, [⟨i⟩]⟩
  | none => ⟨200, []⟩

/-- One `resolve(email)` call against the stateful CRM: the create POST
hits the CRM, and the search (issued only on conflict) hits the resulting
state. -/
def resolveInCrm (crm : Crm) (email : String) :
    Except ResolveError ContactResult × Crm :=
  let (cresp, crm') := crmCreate crm email
  ((ensureContactExists email cresp (crmSearch crm' email)).1, crm')

/-! ## Helper lemmas -/

/-- 409 is not a 2xx status. -/
theorem respOk_409 : respOk 409 = false := by decide

/-- A create accepted by the remote (2xx) short-circuits: the new id is
returned with action `created` and only the create call was issued. -/
theorem ensure_ok (e : String) (create : CreateResponse)
    (search : SearchResponse) (h : respOk create.status = true) :
    ensureContactExists e create search
      = (Except.ok ⟨create.id, Action.created⟩, [RemoteCall.create e]) := by
  unfold ensureContactExists
  simp [h]

/-- On a 409 the resolver always issues exactly the search call filtered
on the requested email, whatever the search outcome. -/
theorem ensure_conflict_calls (e : String) (create : CreateResponse)
    (search : SearchResponse) (h409 : create.status = 409) :
    (ensureContactExists e create search).2
      = [RemoteCall.create e, RemoteCall.search "email" "EQ" e] := by
  unfold ensureContactExists
  rw [h409, respOk_409]
  cases hs : respOk search.status
  · simp [hs]
  · cases hr : search.results <;> simp [hs, hr]

/-- The resolver never issues a note call. -/
theorem note_not_mem_ensure (e cid b : String) (t : Nat)
    (create : CreateResponse) (search : SearchResponse) :
    RemoteCall.note cid b t ∉ (ensureContactExists e create search).2 := by
  unfold ensureContactExists
  repeat' split
  all_goals simp

/-- `createContactNote` issues exactly its note call, whatever the remote
answers. -/
theorem createContactNote_calls (cid nc : String) (resp : NoteResponse) :
    (createContactNote cid nc resp).2 = [RemoteCall.note cid nc 201] := by
  unfold createContactNote
  split <;> rfl

/-! ## Claims -/

/-- Claim C1, counterexample.  The claim says a conflict body containing
"ID: 4242" makes resolve return "4242" with action `found` and no search
call.  At this concrete input the body does embed the extractable id
"4242", yet `ensureContactExists` returns the search result's id "9999"
(so not the extracted id) and does issue the search call: the body of the
conflict response is never inspected by the server.js resolver. -/
theorem ensure_conflict_id_in_body_counterexample :
    extractIdStr "Contact already exists. Existing ID: 4242" = some "4242" ∧
    (ensureContactExists "dup@example.com"
        ⟨409, "", "Contact already exists. Existing ID: 4242"⟩
        ⟨200, [⟨"9999"⟩]⟩).1 = Except.ok ⟨"9999", Action.found⟩ ∧
    (ensureContactExists "dup@example.com"
        ⟨409, "", "Contact already exists. Existing ID: 4242"⟩
        ⟨200, [⟨"9999"⟩]⟩).1 ≠ Except.ok ⟨"4242", Action.found⟩ ∧
    (ensureContactExists "dup@example.com"
        ⟨409, "", "Contact already exists. Existing ID: 4242"⟩
        ⟨200, [⟨"9999"⟩]⟩).2
      = [RemoteCall.create "dup@example.com",
         RemoteCall.search "email" "EQ" "dup@example.com"] := by
  refine ⟨by decide, rfl, ?_, rfl⟩
  intro h
  exact absurd (Except.ok.inj h) (by decide)

/-- Claim C1, amended.  The server.js resolver (`ensureContactExists`)
ignores the conflict body entirely and always issues the search on a 409;
the extraction of "ID:" digits with no search call exists only in the
part_001 handler variant, where the extracted id is updated directly via
a PATCH and, on PATCH success, the response carries action `updated`
(not `found`). -/
theorem conflict_id_extraction_only_in_p1 (e d : String)
    (create : CreateResponse) (search : SearchResponse)
    (update : UpdateResponse) (he : e ≠ "") (h409 : create.status = 409)
    (hx : extractIdStr create.body = some d) :
    (createContactHandlerP1 (some e) true create search update).2
      = [RemoteCall.create e, RemoteCall.patch d] ∧
    (respOk update.status = true →
      (createContactHandlerP1 (some e) true create search update).1
        = P1Outcome.updated update.id) ∧
    (ensureContactExists e create search).2
      = [RemoteCall.create e, RemoteCall.search "email" "EQ" e] := by
  refine ⟨?_, ?_, ensure_conflict_calls e create search h409⟩
  · unfold createContactHandlerP1 updateExistingContact
    rw [h409, respOk_409]
    cases hu : respOk update.status <;> simp [he, hx, hu]
  · intro hu
    unfold createContactHandlerP1 updateExistingContact
    rw [h409, respOk_409]
    simp [he, hx, hu]

/-- Claim C1, witness for the amended theorem at the spec's own example:
conflict body "Contact already exists. Existing ID: 2002". -/
theorem conflict_id_extraction_only_in_p1_witness :
    (createContactHandlerP1 (some "dup@example.com") true
        ⟨409, "", "Contact already exists. Existing ID: 2002"⟩
        ⟨200, []⟩ ⟨200, "2002", ""⟩).2
      = [RemoteCall.create "dup@example.com", RemoteCall.patch "2002"] ∧
    (respOk (200 : Nat) = true →
      (createContactHandlerP1 (some "dup@example.com") true
          ⟨409, "", "Contact already exists. Existing ID: 2002"⟩
          ⟨200, []⟩ ⟨200, "2002", ""⟩).1 = P1Outcome.updated "2002") ∧
    (ensureContactExists "dup@example.com"
        ⟨409, "", "Contact already exists. Existing ID: 2002"⟩
        ⟨200, []⟩).2
      = [RemoteCall.create "dup@example.com",
         RemoteCall.search "email" "EQ" "dup@example.com"] :=
  conflict_id_extraction_only_in_p1 "dup@example.com" "2002"
    ⟨409, "", "Contact already exists. Existing ID: 2002"⟩
    ⟨200, []⟩ ⟨200, "2002", ""⟩ (by decide) rfl (by decide)

/-- Claim C2: against a CRM that enforces email uniqueness, two
sequential resolve calls for an email not yet present return the same
contactId, the first with action `created`, the second with action
`found`. -/
theorem resolve_idempotent (crm : Crm) (email : String)
    (h : crm.contacts.lookup email = none) :
    ∃ cid,
      (resolveInCrm crm email).1 = Except.ok ⟨cid, Action.created⟩ ∧
      (resolveInCrm (resolveInCrm crm email).2 email).1
        = Except.ok ⟨cid, Action.found⟩ := by
  refine ⟨toString crm.nextId, ?_, ?_⟩
  · unfold resolveInCrm crmCreate
    rw [h]
    simp [ensureContactExists, respOk]
  · unfold resolveInCrm crmCreate crmSearch
    rw [h]
    simp only [List.lookup, beq_self_eq_true, if_true]
    simp [ensureContactExists, respOk]

/-- Claim C2, witness: a fresh CRM with next id 1001 and the email
new@example.com. -/
theorem resolve_idempotent_witness :
    ∃ cid,
      (resolveInCrm ⟨[], 1001⟩ "new@example.com").1
        = Except.ok ⟨cid, Action.created⟩ ∧
      (resolveInCrm (resolveInCrm ⟨[], 1001⟩ "new@example.com").2
          "new@example.com").1 = Except.ok ⟨cid, Action.found⟩ :=
  resolve_idempotent ⟨[], 1001⟩ "new@example.com" rfl

/-- Claim C3: a 409 on create followed by a 2xx search with zero results
is a surfaced failure, never a success: resolve throws the ensure-failure
carrying status 409 (the code's realization of NotFoundAfterConflict). -/
theorem conflict_then_empty_search_fails (email : String)
    (create : CreateResponse) (search : SearchResponse)
    (h409 : create.status = 409) (hok : respOk search.status = true)
    (hempty : search.results = []) :
    (ensureContactExists email create search).1
      = Except.error (ResolveError.ensureFailed 409) ∧
    ∀ cr, (ensureContactExists email create search).1 ≠ Except.ok cr := by
  have key : (ensureContactExists email create search).1
      = Except.error (ResolveError.ensureFailed 409) := by
    unfold ensureContactExists
    rw [h409, respOk_409]
    simp [hok, hempty]
  refine ⟨key, ?_⟩
  intro cr hcr
  rw [key] at hcr
  exact Except.noConfusion hcr

/-- Claim C3, witness: conflict with body "Contact already exists" and an
empty 200 search. -/
theorem conflict_then_empty_search_fails_witness :
    (ensureContactExists "ghost@example.com"
        ⟨409, "", "Contact already exists"⟩ ⟨200, []⟩).1
      = Except.error (ResolveError.ensureFailed 409) ∧
    ∀ cr, (ensureContactExists "ghost@example.com"
        ⟨409, "", "Contact already exists"⟩ ⟨200, []⟩).1 ≠ Except.ok cr :=
  conflict_then_empty_search_fails "ghost@example.com"
    ⟨409, "", "Contact already exists"⟩ ⟨200, []⟩ rfl (by decide) rfl

/-- Claim C4: a 2xx create short-circuits resolution — the new id is
returned with action `created` and no further resolution call is issued —
and, when the note creation then succeeds, the handler reports
`{contactId, noteId, action created}`. -/
theorem direct_create_short_circuits (e n : String)
    (create : CreateResponse) (search : SearchResponse)
    (note : NoteResponse) (he : e ≠ "")
    (hok : respOk create.status = true)
    (hnok : respOk note.status = true) :
    ensureContactExists e create search
      = (Except.ok ⟨create.id, Action.created⟩, [RemoteCall.create e]) ∧
    (createContactAndNoteHandler (some e) (some n) true create search
        note).1 = UpsertOutcome.success create.id note.id Action.created := by
  refine ⟨ensure_ok e create search hok, ?_⟩
  have hE := ensure_ok e create search hok
  unfold createContactAndNoteHandler
  simp [he, hE, createContactNote, hnok]

/-- Claim C4, witness: the spec's end-to-end scenario — create succeeds
with id "1001", the note with id "5001"; outcome
`success "1001" "5001" created`. -/
theorem direct_create_short_circuits_witness :
    ensureContactExists "new@example.com" ⟨201, "1001", ""⟩ ⟨200, []⟩
      = (Except.ok ⟨"1001", Action.created⟩,
         [RemoteCall.create "new@example.com"]) ∧
    (createContactAndNoteHandler (some "new@example.com") (some "hello")
        true ⟨201, "1001", ""⟩ ⟨200, []⟩ ⟨201, "5001", ""⟩).1
      = UpsertOutcome.success "1001" "5001" Action.created :=
  direct_create_short_circuits "new@example.com" "hello"
    ⟨201, "1001", ""⟩ ⟨200, []⟩ ⟨201, "5001", ""⟩
    (by decide) (by decide) (by decide)

/-- Claim C5: on a conflict with no extractable embedded id, resolve
issues exactly one search — with the single exact-match filter
`email EQ <requested email>` — and returns the first result's id with
action `found` when the result list is non-empty. -/
theorem conflict_searches_exactly_once (email : String)
    (create : CreateResponse) (search : SearchResponse)
    (r : SearchResult) (rs : List SearchResult)
    (h409 : create.status = 409)
    (_hnoid : extractIdStr create.body = none)
    (hsok : respOk search.status = true)
    (hres : search.results = r :: rs) :
    (ensureContactExists email create search).1
      = Except.ok ⟨r.id, Action.found⟩ ∧
    (ensureContactExists email create search).2
      = [RemoteCall.create email,
         RemoteCall.search "email" "EQ" email] := by
  refine ⟨?_, ensure_conflict_calls email create search h409⟩
  unfold ensureContactExists
  rw [h409, respOk_409]
  simp [hsok, hres]

/-- Claim C5, witness: a bare "Contact already exists" conflict body and
a search returning the single contact "2002". -/
theorem conflict_searches_exactly_once_witness :
    (ensureContactExists "dup@example.com"
        ⟨409, "", "Contact already exists"⟩ ⟨200, [⟨"2002"⟩]⟩).1
      = Except.ok ⟨"2002", Action.found⟩ ∧
    (ensureContactExists "dup@example.com"
        ⟨409, "", "Contact already exists"⟩ ⟨200, [⟨"2002"⟩]⟩).2
      = [RemoteCall.create "dup@example.com",
         RemoteCall.search "email" "EQ" "dup@example.com"] :=
  conflict_searches_exactly_once "dup@example.com"
    ⟨409, "", "Contact already exists"⟩ ⟨200, [⟨"2002"⟩]⟩
    ⟨"2002"⟩ [] rfl (by decide) (by decide) rfl

/-- Claim C6: a non-2xx create status other than 409 is fatal — resolve
throws the ensure-failure carrying that status and issues no further
remote call, in both the server.js resolver and the part_001 handler. -/
theorem non_conflict_create_error_fatal (email : String)
    (create : CreateResponse) (search : SearchResponse)
    (update : UpdateResponse) (he : email ≠ "")
    (hnok : respOk create.status = false)
    (hne : create.status ≠ 409) :
    (ensureContactExists email create search).1
      = Except.error (ResolveError.ensureFailed create.status) ∧
    (ensureContactExists email create search).2
      = [RemoteCall.create email] ∧
    createContactHandlerP1 (some email) true create search update
      = (P1Outcome.createFailed, [RemoteCall.create email]) := by
  refine ⟨?_, ?_, ?_⟩
  · unfold ensureContactExists
    simp [hnok, hne]
  · unfold ensureContactExists
    simp [hnok, hne]
  · unfold createContactHandlerP1
    simp [he, hnok, hne]

/-- Claim C6, witness: a 500 on create. -/
theorem non_conflict_create_error_fatal_witness :
    (ensureContactExists "x@y.z" ⟨500, "", "Internal Server Error"⟩
        ⟨200, [⟨"1"⟩]⟩).1
      = Except.error (ResolveError.ensureFailed 500) ∧
    (ensureContactExists "x@y.z" ⟨500, "", "Internal Server Error"⟩
        ⟨200, [⟨"1"⟩]⟩).2 = [RemoteCall.create "x@y.z"] ∧
    createContactHandlerP1 (some "x@y.z")
        true ⟨500, "", "Internal Server Error"⟩ ⟨200, [⟨"1"⟩]⟩
        ⟨200, "1", ""⟩
      = (P1Outcome.createFailed, [RemoteCall.create "x@y.z"]) :=
  non_conflict_create_error_fatal "x@y.z"
    ⟨500, "", "Internal Server Error"⟩ ⟨200, [⟨"1"⟩]⟩ ⟨200, "1", ""⟩
    (by decide) (by decide) (by decide)

/-- When the create succeeded, the handler's trace is exactly the create
call followed by the note call, whose body is the caller text defaulted
to the fallback constant. -/
theorem handler_note_call (e : String) (notes : Option String)
    (create : CreateResponse) (search : SearchResponse)
    (note : NoteResponse) (he : e ≠ "")
    (hok : respOk create.status = true) :
    (createContactAndNoteHandler (some e) notes true create search
        note).2
      = [RemoteCall.create e,
         RemoteCall.note create.id
           (match notes with
            | none => "Live December 11, 2025"
            | some s => if s = "" then "Live December 11, 2025" else s)
           201] := by
  have hE := ensure_ok e create search hok
  unfold createContactAndNoteHandler
  cases hns : respOk note.status <;> simp [he, hE, createContactNote, hns]

/-- Claim C7: the note is created with the fallback text
"Live December 11, 2025" verbatim when the caller's note text is absent
or empty, and with the caller's text verbatim otherwise. -/
theorem note_body_defaulting (e : String) (notes : Option String)
    (create : CreateResponse) (search : SearchResponse)
    (note : NoteResponse) (he : e ≠ "")
    (hok : respOk create.status = true) :
    ((notes = none ∨ notes = some "") →
      RemoteCall.note create.id "Live December 11, 2025" 201
        ∈ (createContactAndNoteHandler (some e) notes true create search
            note).2) ∧
    (∀ s, notes = some s → s ≠ "" →
      RemoteCall.note create.id s 201
        ∈ (createContactAndNoteHandler (some e) notes true create search
            note).2) := by
  constructor
  · rintro (h | h) <;> subst h <;>
      simp [handler_note_call e _ create search note he hok]
  · rintro s rfl hs
    rw [handler_note_call e (some s) create search note he hok]
    simp [hs]

/-- Claim C7, witness: with absent notes, the note call carries the
fallback text. -/
theorem note_body_defaulting_witness :
    RemoteCall.note "7" "Live December 11, 2025" 201
      ∈ (createContactAndNoteHandler (some "a@b.c") none true
          ⟨200, "7", ""⟩ ⟨200, []⟩ ⟨201, "5", ""⟩).2 :=
  (note_body_defaulting "a@b.c" none ⟨200, "7", ""⟩ ⟨200, []⟩
      ⟨201, "5", ""⟩ (by decide) (by decide)).1 (Or.inl rfl)

/-- Claim C8: a missing or empty email is rejected with the validation
error and the handler issues no remote call at all — the resolver never
runs. -/
theorem missing_email_rejected_before_core (email notes : Option String)
    (hasKey : Bool) (create : CreateResponse) (search : SearchResponse)
    (note : NoteResponse) (h : email = none ∨ email = some "") :
    createContactAndNoteHandler email notes hasKey create search note
      = (UpsertOutcome.emailRequired, []) := by
  rcases h with h | h <;> subst h <;> simp [createContactAndNoteHandler]

/-- Claim C8, witness: an absent email field. -/
theorem missing_email_rejected_before_core_witness :
    createContactAndNoteHandler none (some "hi") true ⟨201, "1", ""⟩
        ⟨200, []⟩ ⟨201, "5", ""⟩
      = (UpsertOutcome.emailRequired, []) :=
  missing_email_rejected_before_core none (some "hi") true ⟨201, "1", ""⟩
    ⟨200, []⟩ ⟨201, "5", ""⟩ (Or.inl rfl)

/-- Claim C9: whenever the handler's trace contains a note-creation call,
the resolver succeeded on that request's email and the note call's
association target is exactly the resolved contactId. -/
theorem note_only_after_resolution (email notes : Option String)
    (hasKey : Bool) (create : CreateResponse) (search : SearchResponse)
    (note : NoteResponse) (cid b : String) (tid : Nat)
    (hmem : RemoteCall.note cid b tid
      ∈ (createContactAndNoteHandler email notes hasKey create search
          note).2) :
    ∃ e cr, email = some e ∧
      (ensureContactExists e create search).1 = Except.ok cr ∧
      cr.contactId = cid := by
  match email with
  | none => simp [createContactAndNoteHandler] at hmem
  | some e =>
    by_cases he : e = ""
    · simp [createContactAndNoteHandler, he] at hmem
    cases hk : hasKey
    · simp [createContactAndNoteHandler, he, hk] at hmem
    rcases hE : ensureContactExists e create search with ⟨res, calls⟩
    have hcalls : calls = (ensureContactExists e create search).2 := by
      rw [hE]
    cases res with
    | error err =>
      unfold createContactAndNoteHandler at hmem
      simp [he, hk, hE] at hmem
      rw [hcalls] at hmem
      exact absurd hmem (note_not_mem_ensure e cid b tid create search)
    | ok cr =>
      unfold createContactAndNoteHandler at hmem
      cases hns : respOk note.status <;>
        simp [he, hk, hE, createContactNote, hns] at hmem <;>
        rw [hcalls] at hmem <;>
        rcases hmem with hmem | hmem
      · exact absurd hmem (note_not_mem_ensure e cid b tid create search)
      · exact ⟨e, cr, rfl, by rw [hE], hmem.1.symm⟩
      · exact absurd hmem (note_not_mem_ensure e cid b tid create search)
      · exact ⟨e, cr, rfl, by rw [hE], hmem.1.symm⟩

/-- Claim C9, witness: a successful run whose trace does contain the note
call. -/
theorem note_only_after_resolution_witness :
    ∃ e cr, (some "a@b.c" : Option String) = some e ∧
      (ensureContactExists e ⟨200, "7", ""⟩ ⟨200, []⟩).1 = Except.ok cr ∧
      cr.contactId = "7" :=
  note_only_after_resolution (some "a@b.c") none true ⟨200, "7", ""⟩
    ⟨200, []⟩ ⟨201, "5", ""⟩ "7" "Live December 11, 2025" 201 (by decide)

/-- Claim C10: the status that triggers duplicate reconciliation is
exactly 409 — a 409 always leads to the search call, while any other
non-2xx status fails at once with no search (and, in the part_001
variant, no extraction-driven patch and no search either, whatever the
body contains). -/
theorem conflict_status_is_exactly_409 (email : String)
    (create : CreateResponse) (search : SearchResponse)
    (update : UpdateResponse) (he : email ≠ "") :
    (create.status = 409 →
      RemoteCall.search "email" "EQ" email
        ∈ (ensureContactExists email create search).2) ∧
    (respOk create.status = false → create.status ≠ 409 →
      (ensureContactExists email create search).1
          = Except.error (ResolveError.ensureFailed create.status) ∧
      RemoteCall.search "email" "EQ" email
          ∉ (ensureContactExists email create search).2 ∧
      (createContactHandlerP1 (some email) true create search update).2
          = [RemoteCall.create email]) := by
  constructor
  · intro h409
    rw [ensure_conflict_calls email create search h409]
    simp
  · intro hnok hne
    refine ⟨?_, ?_, ?_⟩
    · unfold ensureContactExists
      simp [hnok, hne]
    · unfold ensureContactExists
      simp [hnok, hne]
    · unfold createContactHandlerP1
      simp [he, hnok, hne]

/-- Claim C10, witness: a 400 whose body even embeds an extractable
"ID: 123" still fails immediately, with no search issued. -/
theorem conflict_status_is_exactly_409_witness :
    (ensureContactExists "x@y.z" ⟨400, "", "Duplicate contact. ID: 123"⟩
        ⟨200, [⟨"123"⟩]⟩).1
      = Except.error (ResolveError.ensureFailed 400) ∧
    RemoteCall.search "email" "EQ" "x@y.z"
        ∉ (ensureContactExists "x@y.z"
            ⟨400, "", "Duplicate contact. ID: 123"⟩ ⟨200, [⟨"123"⟩]⟩).2 ∧
    (createContactHandlerP1 (some "x@y.z") true
        ⟨400, "", "Duplicate contact. ID: 123"⟩ ⟨200, [⟨"123"⟩]⟩
        ⟨200, "123", ""⟩).2 = [RemoteCall.create "x@y.z"] :=
  (conflict_status_is_exactly_409 "x@y.z"
      ⟨400, "", "Duplicate contact. ID: 123"⟩ ⟨200, [⟨"123"⟩]⟩
      ⟨200, "123", ""⟩ (by decide)).2 (by decide) (by decide)

end NytroUpsert
